import Mathlib

/-!
Verification development for the PG_Profile_Parser repository.

The repository has two pipelines:
* `analyze_db_report.py` — loads an Excel workbook of PostgreSQL statistics
  sheets, computes derived metrics and threshold findings, and renders a
  Markdown report;
* `parse_html_to_excel.py` — extracts a JSON payload embedded after a
  `const data=` marker in an HTML report via a brace-balancing scanner.

This file shallowly embeds the data model and the functions of both
pipelines and proves properties about them.  Cell values are modelled by
`Value` (string, exact rational number, or NaN); Python floats are
modelled as exact rationals.  pandas `DataFrame`s are modelled as a column
list plus a list of association-list rows; `row.get(col, default)` becomes
`rowGet`.  Fallible operations (a `KeyError` from `sort_values` on an
absent column, or from indexing an absent column) are modelled with
`Except String`.
-/

/-- A spreadsheet cell / scalar value: a string, an exact rational number
(modelling Python ints and floats), or the floating NaN used by pandas for
missing data. -/
inductive Value where
  | str : String → Value
  | num : ℚ → Value
  | nan : Value
deriving DecidableEq, Repr

namespace Value

/-- Python `==` on the modelled values: numbers compare by value, strings
by content, and NaN is not equal to anything (including itself). -/
def veq : Value → Value → Bool
  | .num a, .num b => a == b
  | .str a, .str b => a == b
  | _, _ => false

/-- Python `x > q` for a cell against a rational threshold; NaN comparisons
are false, and non-numeric comparisons do not occur in the modelled sheets. -/
def vgt (a : Value) (q : ℚ) : Bool :=
  match a with
  | .num x => q < x
  | _ => false

/-- Python `x < q` for a cell against a rational threshold. -/
def vlt (a : Value) (q : ℚ) : Bool :=
  match a with
  | .num x => x < q
  | _ => false

/-- Python `x >= q` for a cell against a rational threshold. -/
def vge (a : Value) (q : ℚ) : Bool :=
  match a with
  | .num x => q ≤ x
  | _ => false

/-- Python `a > b` between two cells. -/
def vgtv (a b : Value) : Bool :=
  match a, b with
  | .num x, .num y => y < x
  | _, _ => false

/-- Python `+` on numeric cells; NaN propagates. -/
def vadd : Value → Value → Value
  | .num a, .num b => .num (a + b)
  | _, _ => .nan

/-- Python `-` on numeric cells; NaN propagates (unused by most rules). -/
def vmul : Value → Value → Value
  | .num a, .num b => .num (a * b)
  | _, _ => .nan

/-- Python `/` on numeric cells; NaN propagates.  Division by zero is
always guarded in the source, so the `ℚ` convention `x / 0 = 0` is never
observable. -/
def vdiv : Value → Value → Value
  | .num a, .num b => .num (a / b)
  | _, _ => .nan

/-- Python truthiness: `0`, `""` are falsy; NaN is truthy. -/
def vtruthy : Value → Bool
  | .num a => a ≠ 0
  | .str s => s ≠ ""
  | .nan => true

/-- pandas `pd.isna`. -/
def visna : Value → Bool
  | .nan => true
  | _ => false

end Value

/-- Python `int(q)`: truncation toward zero. -/
def pyTrunc (q : ℚ) : Int :=
  if 0 ≤ q then ⌊q⌋ else -⌊-q⌋

/-- Round-half-even of a rational to an integer, Python's `round` and the
rounding used by `format` on exact decimal inputs. -/
def roundHalfEven (q : ℚ) : Int :=
  let f := ⌊q⌋
  let d := q - (f : ℚ)
  if d < 1 / 2 then f
  else if (1 : ℚ) / 2 < d then f + 1
  else if f % 2 = 0 then f else f + 1

/-- Python `round(x, n)` on a cell; `round(nan, n)` is NaN. -/
def vround (v : Value) (prec : Nat) : Value :=
  match v with
  | .num q => .num ((roundHalfEven (q * (10 : ℚ) ^ prec) : ℚ) / (10 : ℚ) ^ prec)
  | _ => .nan

/-- Insert a thousands separator into a reversed digit list: a comma goes
before every digit whose (0-based) position from the right is a positive
multiple of three. -/
def commaRev : Nat → List Char → List Char
  | _, [] => []
  | k, c :: cs =>
    (if k ≠ 0 && k % 3 == 0 then [',', c] else [c]) ++ commaRev (k + 1) cs

/-- Python `f"{n:,}"` for a natural number. -/
def fmtCommaNat (n : Nat) : String :=
  String.mk ((commaRev 0 (toString n).data.reverse).reverse)

/-- Python `f"{i:,}"` for an integer. -/
def fmtCommaInt (i : Int) : String :=
  if i < 0 then "-" ++ fmtCommaNat i.natAbs else fmtCommaNat i.natAbs

/-- Zero-padded decimal rendering of `n` to exactly `w` digits. -/
def padDigits (w : Nat) (n : Nat) : String :=
  let s := toString n
  String.mk (List.replicate (w - s.length) '0') ++ s

/-- Python `f"{x:.prec f}"` on a cell: fixed-point with round-half-even;
NaN formats as the literal string `nan` (this is exactly how Python
formats `float("nan")`). -/
def fmtFixed (prec : Nat) (v : Value) : String :=
  match v with
  | .nan => "nan"
  | .str _ => ""
  | .num q =>
    let r := roundHalfEven (q * (10 : ℚ) ^ prec)
    let sign := if r < 0 then "-" else ""
    let ip := r.natAbs / 10 ^ prec
    let fp := r.natAbs % 10 ^ prec
    if prec = 0 then sign ++ toString ip
    else sign ++ toString ip ++ "." ++ padDigits prec fp

/-- Python `f"{x:,}"` applied directly to a cell: integers get digit
grouping, NaN formats as `nan`.  Non-integer rationals append the decimal
expansion of the fractional part (the modelled sheets hold integers
here). -/
def fracDigits : Nat → Nat → Nat → List Char
  | 0, _, _ => []
  | _ + 1, _, 0 => []
  | fuel + 1, den, r =>
    let d := r * 10 / den
    let r' := r * 10 % den
    Char.ofNat (48 + d % 10) :: fracDigits fuel den r'

/-- Decimal rendering of a rational, used for Python `str()` of a float
and for grouping-format of non-integer cells. -/
def qDecimal (q : ℚ) : String :=
  let sign := if q < 0 then "-" else ""
  let n := q.num.natAbs
  let d := q.den
  if d = 1 then sign ++ toString n
  else sign ++ toString (n / d) ++ "." ++ String.mk (fracDigits 25 d (n % d))

/-- Python `f"{v:,}"` on a cell. -/
def fmtCommaV (v : Value) : String :=
  match v with
  | .nan => "nan"
  | .str s => s
  | .num q =>
    if q.den = 1 then fmtCommaInt q.num
    else (if q < 0 then "-" else "") ++ fmtCommaNat (q.num.natAbs / q.den) ++ "." ++
      String.mk (fracDigits 25 q.den (q.num.natAbs % q.den))

/-- Python `str()` of a cell value. -/
def pyStr : Value → String
  | .str s => s
  | .nan => "nan"
  | .num q => qDecimal q

/-- The characters Python `str.split()` (no separator) splits on. -/
def isPySpace (c : Char) : Bool :=
  c = ' ' || c = '\t' || c = '\n' || c = '\r' || c = '\x0b' || c = '\x0c'

/-- Tokenizer backing Python `s.split()`: splits on whitespace runs and
drops empty tokens. -/
def splitWsAux : List Char → List Char → List (List Char)
  | acc, [] => if acc.isEmpty then [] else [acc.reverse]
  | acc, c :: cs =>
    if isPySpace c then
      if acc.isEmpty then splitWsAux [] cs
      else acc.reverse :: splitWsAux [] cs
    else splitWsAux (c :: acc) cs

/-- Python space-joined `s.split()`: collapse all whitespace runs to single
spaces and strip leading/trailing whitespace. -/
def pyNormalize (s : String) : String :=
  String.intercalate " " ((splitWsAux [] s.data).map String.mk)

/-- A pandas row, as a mapping from column name to cell value. -/
abbrev Row := List (String × Value)

/-- pandas `row.get(col, default)`: the default is used only when the
column is absent; a present NaN cell is returned as NaN. -/
def rowGet (r : Row) (c : String) (d : Value) : Value :=
  match List.lookup c r with
  | some v => v
  | none => d

/-- A pandas DataFrame: the column index plus the rows. -/
structure DataFrame where
  cols : List String
  rows : List Row

/-- The empty DataFrame `pd.DataFrame()`. -/
def DataFrame.empty : DataFrame := ⟨[], []⟩

/-- A loaded workbook: sheet name to DataFrame, as built by `load_data`. -/
abbrev Workbook := List (String × DataFrame)

/-- Python `self.sheets.get(name, pd.DataFrame())`. -/
def wbGet (wb : Workbook) (name : String) : DataFrame :=
  (List.lookup name wb).getD DataFrame.empty

/-- The numeric sort key of a row in a column; a missing or non-numeric
cell sorts with the NaN bucket (pandas `na_position="last"`). -/
def rowKey (r : Row) (c : String) : Option ℚ :=
  match rowGet r c .nan with
  | .num q => some q
  | _ => none

/-- pandas `df.sort_values(by=c, ascending=False)` on the rows, modelling
the index construction of `nargsort`: the non-NaN block is reversed,
argsorted ascending, reversed back, and the NaN rows are appended last
(`na_position="last"`).  The ascending argsort here is an insertion sort;
the source uses the default `kind="quicksort"` (numpy introsort), which
sorts exactly like this model on arrays small enough to fall into its
insertion-sort cutoff but is not guaranteed stable above it, so the order
of key-tied rows produced by this model is an idealization for larger
sheets — no theorem below about the sorted output depends on the order of
tied rows. -/
def pandasSortDesc (rows : List Row) (c : String) : List Row :=
  let keyed := rows.filterMap (fun r => (rowKey r c).map (fun q => (q, r)))
  let nanRows := rows.filter (fun r => (rowKey r c).isNone)
  ((keyed.reverse.insertionSort (fun a b => a.1 ≤ b.1)).reverse.map (fun p => p.2)) ++ nanRows

/-- The monitoring period extracted from the `Properties` sheet. -/
structure Period where
  start : Value
  stop : Value
  duration : Int

/-- Embeds `PostgresAnalyzer.get_report_period`. -/
def get_report_period (props : DataFrame) : Period :=
  if props.rows.isEmpty then ⟨.str "Не указан", .str "Не указан", 0⟩
  else
    let first := props.rows.headD []
    let s := if "report_start1" ∈ props.cols then rowGet first "report_start1" .nan
             else .str "Не указан"
    let e := if "report_end1" ∈ props.cols then rowGet first "report_end1" .nan
             else .str "Не указан"
    let d := match rowGet first "interval_duration_sec" .nan with
             | .num q => pyTrunc (q / 60)
             | _ => 0
    ⟨s, e, d⟩

/-- Per-database metrics, one per `dbstat` row. -/
structure DbM where
  dbname : Value
  size : Value
  size_delta : Value
  cache_hit_ratio : Value
  commits : Value
  rollbacks : Value
  rollback_ratio : Value
  deadlocks : Value
  temp_files : Value
  temp_bytes : Value
  issues : List String

/-- The rollback-ratio computation of `analyze_database_stats`:
`(rollbacks / (commits + rollbacks) * 100) if (commits + rollbacks) > 0 else 0`. -/
def dbRollbackRatio (commits rollbacks : Value) : Value :=
  if (commits.vadd rollbacks).vgt 0 then
    (rollbacks.vdiv (commits.vadd rollbacks)).vmul (.num 100)
  else .num 0

/-- The per-row body of `analyze_database_stats`. -/
def analyzeDbRow (row : Row) : DbM :=
  let dbname := rowGet row "dbname" (.str "Unknown")
  let cache_hit_ratio := rowGet row "blks_hit_pct" (.num 0)
  let size := rowGet row "datsize" (.str "N/A")
  let size_delta := rowGet row "datsize_delta" (.str "N/A")
  let commits := rowGet row "xact_commit" (.num 0)
  let rollbacks := rowGet row "xact_rollback" (.num 0)
  let deadlocks := rowGet row "deadlocks" (.num 0)
  let temp_files := rowGet row "temp_files" (.num 0)
  let temp_bytes := rowGet row "temp_bytes" (.num 0)
  let rollback_ratio := dbRollbackRatio commits rollbacks
  let issues :=
    (if cache_hit_ratio.vlt 95 then
      ["⚠️ Низкий cache hit ratio: " ++ fmtFixed 2 cache_hit_ratio ++ "%"] else []) ++
    (if deadlocks.vtruthy && deadlocks.vgt 0 then
      ["⚠️ Обнаружены deadlocks: " ++ pyStr deadlocks] else []) ++
    (if temp_files.vtruthy && temp_files.vgt 0 then
      ["⚠️ Использование временных файлов: " ++ pyStr temp_files ++ " (" ++ pyStr temp_bytes ++ ")"] else []) ++
    (if rollback_ratio.vgt 5 then
      ["⚠️ Высокий процент rollback: " ++ fmtFixed 2 rollback_ratio ++ "%"] else [])
  ⟨dbname, size, size_delta, cache_hit_ratio, commits, rollbacks, rollback_ratio,
   deadlocks, temp_files, temp_bytes, issues⟩

/-- Embeds `PostgresAnalyzer.analyze_database_stats`. -/
def analyze_database_stats (df : DataFrame) : List DbM :=
  if df.rows.isEmpty then [] else df.rows.map analyzeDbRow

/-- Embeds `PostgresAnalyzer.get_query_text`: resolve a query id against
the `queries` sheet; a `KeyError` from indexing an absent column is an
`Except.error`. -/
def get_query_text (queries : DataFrame) (query_id : Value) : Except String (Option String) :=
  if queries.rows.isEmpty then .ok none
  else if "hexqueryid" ∈ queries.cols then
    match queries.rows.filter (fun r => (rowGet r "hexqueryid" .nan).veq query_id) with
    | [] => .ok none
    | r :: _ =>
      if "query_texts" ∈ queries.cols then
        match rowGet r "query_texts" .nan with
        | .str s => if s ≠ "" then .ok (some (pyNormalize s)) else .ok none
        | _ => .ok none
      else .error "KeyError: query_texts"
  else .error "KeyError: hexqueryid"

/-- Per-query metrics, one per selected `top_statements` row. -/
structure QueryM where
  query_id : Value
  query_preview : String
  query_preview_suffix : String
  dbname : Value
  username : Value
  calls : Value
  total_time : Value
  mean_time : Value
  rows : Value
  cache_ratio : Value
  temp_blks : Value
  issues : List String

/-- The total-time column chosen by `analyze_top_queries`:
`'total_exec_time' if 'total_exec_time' in df.columns else 'total_time'`. -/
def timeColOf (df : DataFrame) : String :=
  if "total_exec_time" ∈ df.cols then "total_exec_time" else "total_time"

/-- The mean-time column chosen by `analyze_top_queries`. -/
def meanColOf (df : DataFrame) : String :=
  if "mean_exec_time" ∈ df.cols then "mean_exec_time" else "mean_time"

/-- The per-query cache-hit computation of `analyze_top_queries`:
`(shared_blks_hit / total_blks * 100) if total_blks > 0 else 100`. -/
def queryCacheRatio (hit read : Value) : Value :=
  let total := hit.vadd read
  if total.vgt 0 then (hit.vdiv total).vmul (.num 100) else .num 100

/-- The 50-character preview of a resolved query text, from
`analyze_top_queries` (`query_text[:50] if query_text else 'N/A'`). -/
def queryPreviewOf (query_text : Option String) : String :=
  match query_text with
  | some t => if t ≠ "" then t.take 50 else "N/A"
  | none => "N/A"

/-- The ellipsis suffix of a preview, from `analyze_top_queries`
(`'...' if query_text and len(query_text) > 50 else ''`). -/
def queryPreviewSuffixOf (query_text : Option String) : String :=
  match query_text with
  | some t => if t ≠ "" && t.length > 50 then "..." else ""
  | none => ""

/-- The per-row body of `analyze_top_queries`. -/
def analyzeQueryRow (queries : DataFrame) (time_col mean_col : String) (row : Row) :
    Except String QueryM := do
  let query_id := rowGet row "hexqueryid" (.str "N/A")
  let dbname := rowGet row "dbname" (.str "N/A")
  let username := rowGet row "username" (.str "N/A")
  let calls := rowGet row "calls" (.num 0)
  let total_time := rowGet row time_col (.num 0)
  let mean_time := rowGet row mean_col (.num 0)
  let rows := rowGet row "rows" (.num 0)
  let query_text ← get_query_text queries query_id
  let shared_blks_hit := rowGet row "shared_blks_hit" (.num 0)
  let shared_blks_read := rowGet row "shared_blks_read" (.num 0)
  let temp_blks_written := rowGet row "temp_blks_written" (.num 0)
  let query_cache_ratio := queryCacheRatio shared_blks_hit shared_blks_read
  let issues :=
    (if mean_time.vgt 1000 then
      ["Медленный запрос: " ++ fmtFixed 2 mean_time ++ " мс"] else []) ++
    (if temp_blks_written.vgt 0 then
      ["Использует temp: " ++ pyStr temp_blks_written ++ " блоков"] else []) ++
    (if query_cache_ratio.vlt 90 then
      ["Низкий cache hit: " ++ fmtFixed 1 query_cache_ratio ++ "%"] else [])
  pure ⟨query_id, queryPreviewOf query_text, queryPreviewSuffixOf query_text,
    dbname, username, calls, total_time, mean_time, rows, query_cache_ratio,
    temp_blks_written, issues⟩

/-- Embeds `PostgresAnalyzer.analyze_top_queries`.  `sort_values` on a
column absent from the sheet raises `KeyError`, modelled as an error. -/
def analyze_top_queries (df queries : DataFrame) (top_n : Nat) : Except String (List QueryM) :=
  if df.rows.isEmpty then .ok []
  else
    let time_col := timeColOf df
    let mean_col := meanColOf df
    if time_col ∈ df.cols then
      ((pandasSortDesc df.rows time_col).take top_n).mapM (analyzeQueryRow queries time_col mean_col)
    else .error ("KeyError: " ++ time_col)

/-- Per-query WAL metrics, one per selected row. -/
structure WalQ where
  query_id : Value
  query_preview : String
  query_preview_suffix : String
  dbname : Value
  calls : Value
  wal_bytes : Value
  wal_mb : Value
  wal_gb : Value
  wal_pct : Value

/-- Embeds `PostgresAnalyzer.analyze_top_wal_queries`. -/
def analyze_top_wal_queries (df queries : DataFrame) (top_n : Nat) :
    Except String (List WalQ) :=
  if df.rows.isEmpty then .ok []
  else if "wal_bytes" ∈ df.cols then
    let df_wal := df.rows.filter
      (fun r => !(rowGet r "wal_bytes" .nan).visna && (rowGet r "wal_bytes" .nan).vgt 0)
    if df_wal.isEmpty then .ok []
    else
      ((pandasSortDesc df_wal "wal_bytes").take top_n).mapM (fun row => do
        let query_id := rowGet row "hexqueryid" (.str "N/A")
        let wal_bytes := rowGet row "wal_bytes" (.num 0)
        let wal_bytes_pct := rowGet row "wal_bytes_pct" (.num 0)
        let query_text ← get_query_text queries query_id
        let wal_mb := wal_bytes.vdiv (.num 1048576)
        let wal_gb := if wal_mb.vgt 1024 then wal_mb.vdiv (.num 1024) else .num 0
        pure ⟨query_id, queryPreviewOf query_text, queryPreviewSuffixOf query_text,
          rowGet row "dbname" (.str "N/A"), rowGet row "calls" (.num 0), wal_bytes,
          vround wal_mb 2,
          (if wal_gb.vgt 0 then vround wal_gb 3 else .num 0),
          (if wal_bytes_pct.vtruthy then vround wal_bytes_pct 2 else .num 0)⟩)
  else .ok []

/-- The WAL summary derived from the first `wal_stats` row. -/
structure WalS where
  records : Value
  fpi : Value
  bytes : Value
  size_mb : Value
  size_gb : Value
  write_time : Value
  sync_time : Value

/-- Embeds `PostgresAnalyzer.analyze_wal_stats`; the empty dict returned
for an empty sheet becomes `none`. -/
def analyze_wal_stats (df : DataFrame) : Option WalS :=
  if df.rows.isEmpty then none
  else
    let row := df.rows.headD []
    let wal_records := rowGet row "wal_records" (.num 0)
    let wal_fpi := rowGet row "wal_fpi" (.num 0)
    let wal_bytes := rowGet row "wal_bytes" (.num 0)
    let wal_write_time := rowGet row "wal_write_time" (.num 0)
    let wal_sync_time := rowGet row "wal_sync_time" (.num 0)
    let wal_mb := if wal_bytes.vtruthy then wal_bytes.vdiv (.num 1048576) else .num 0
    let wal_gb := wal_mb.vdiv (.num 1024)
    some ⟨wal_records, wal_fpi, wal_bytes, wal_mb, wal_gb, wal_write_time, wal_sync_time⟩

/-- Per-table metrics for tables with at least one finding. -/
structure TableM where
  dbname : Value
  schema : Value
  table : Value
  size : Value
  live_tuples : Value
  dead_tuples : Value
  seq_scan : Value
  idx_scan : Value
  mod_since_analyze : Value
  issues : List String

/-- The per-row body of `analyze_tables`; rows without findings are
dropped. -/
def analyzeTableRow (row : Row) : Option TableM :=
  let dbname := rowGet row "dbname" (.str "N/A")
  let schemaname := rowGet row "schemaname" (.str "N/A")
  let relname := rowGet row "relname" (.str "N/A")
  let n_live_tup := rowGet row "n_live_tup" (.num 0)
  let n_dead_tup := rowGet row "n_dead_tup" (.num 0)
  let n_mod_since_analyze := rowGet row "n_mod_since_analyze" (.num 0)
  let seq_scan := rowGet row "seq_scan" (.num 0)
  let idx_scan := rowGet row "idx_scan" (.num 0)
  let relsize := rowGet row "relsize" (.str "N/A")
  let issues :=
    (if n_live_tup.vgt 0 then
      (let dead_ratio := (n_dead_tup.vdiv n_live_tup).vmul (.num 100)
       if dead_ratio.vgt 20 then
         ["⚠️ Много мертвых строк: " ++ fmtFixed 1 dead_ratio ++ "% (" ++ fmtCommaV n_dead_tup ++ ")"]
       else [])
     else []) ++
    (if n_live_tup.vgt 0 && n_mod_since_analyze.vgtv (n_live_tup.vmul (.num (1 / 5))) then
      ["⚠️ Нужен ANALYZE: " ++ fmtCommaV n_mod_since_analyze ++ " изменений"] else []) ++
    (if seq_scan.vgt 100 && n_live_tup.vgt 10000 then
      ["⚠️ Много seq_scan: " ++ pyStr seq_scan ++ " (возможно нужен индекс)"] else [])
  if issues.isEmpty then none
  else some ⟨dbname, schemaname, relname, relsize, n_live_tup, n_dead_tup,
    seq_scan, idx_scan, n_mod_since_analyze, issues⟩

/-- Embeds `PostgresAnalyzer.analyze_tables`: keep rows with findings,
sort by descending finding count (Python `sorted` is stable and
`reverse=True` preserves the original order of ties), keep the top N. -/
def analyze_tables (df : DataFrame) (top_n : Nat) : List TableM :=
  if df.rows.isEmpty then []
  else
    let results := df.rows.filterMap analyzeTableRow
    (results.insertionSort (fun a b => b.issues.length ≤ a.issues.length)).take top_n

/-- An unused-index record. -/
structure IdxM where
  dbname : Value
  schema : Value
  table : Value
  index : Value
  size : Value
  scans : Value

/-- The per-row body of `analyze_indexes`: report the row exactly when
`row.get('idx_scan', 0) == 0`. -/
def analyzeIndexRow (row : Row) : Option IdxM :=
  let idx_scan := rowGet row "idx_scan" (.num 0)
  if idx_scan.veq (.num 0) then
    some ⟨rowGet row "dbname" (.str "N/A"), rowGet row "schemaname" (.str "N/A"),
      rowGet row "relname" (.str "N/A"), rowGet row "indexrelname" (.str "N/A"),
      rowGet row "indexrelsize" (.str "N/A"), idx_scan⟩
  else none

/-- Embeds `PostgresAnalyzer.analyze_indexes`. -/
def analyze_indexes (df : DataFrame) : List IdxM :=
  if df.rows.isEmpty then [] else df.rows.filterMap analyzeIndexRow

/-- Python `int()` of a numeric cell (always guarded by an NaN check in
the source before being applied). -/
def pyIntV : Value → Int
  | .num q => pyTrunc q
  | _ => 0

/-- The WAL generation rate of `generate_markdown_report`:
`wal_stats['size_mb'] / duration if duration > 0 else 0`. -/
def walPerMin (size_mb : Value) (duration : Int) : Value :=
  if duration > 0 then size_mb.vdiv (.num (duration : ℚ)) else .num 0

/-- The single WAL-rate classification line emitted by
`generate_markdown_report` (the `if/elif/else` at its WAL section). -/
def walClassLine (wpm : Value) : String :=
  if wpm.vgt 100 then "⚠️ **Высокая скорость генерации WAL** - возможно много операций записи\n\n"
  else if wpm.vgt 50 then "⚡ **Умеренная активность записи**\n\n"
  else "✅ **Нормальная активность записи**\n\n"

/-- The per-database block of the report (metric table plus findings). -/
def renderDbBlock (db : DbM) : List String :=
  let size_str := if db.size.visna then "" else pyStr db.size
  let size_delta_str := if db.size_delta.visna then "" else pyStr db.size_delta
  let commits_str := if !db.commits.visna then fmtCommaInt (pyIntV db.commits) else ""
  let rollbacks_str := if !db.rollbacks.visna then fmtCommaInt (pyIntV db.rollbacks) else ""
  let rollback_ratio_str :=
    if !db.rollback_ratio.visna && rollbacks_str ≠ "" then
      "(" ++ fmtFixed 2 db.rollback_ratio ++ "%)" else ""
  let deadlocks_str :=
    if db.deadlocks.visna || db.deadlocks.veq (.num 0) then "" else toString (pyIntV db.deadlocks)
  let temp_files_str :=
    if db.temp_files.visna || db.temp_files.veq (.num 0) then "" else toString (pyIntV db.temp_files)
  ["### База данных: `" ++ pyStr db.dbname ++ "`\n\n",
   "| Метрика | Значение |\n",
   "|---------|----------|\n",
   "| **Размер БД** | " ++ size_str ++ " |\n",
   "| **Изменение размера** | " ++ size_delta_str ++ " |\n",
   "| **Cache Hit Ratio** | " ++ fmtFixed 2 db.cache_hit_ratio ++ "% |\n",
   "| **Commits** | " ++ commits_str ++ " |\n",
   "| **Rollbacks** | " ++ rollbacks_str ++ " " ++ rollback_ratio_str ++ " |\n",
   "| **Deadlocks** | " ++ deadlocks_str ++ " |\n",
   "| **Временные файлы** | " ++ temp_files_str ++ " |\n\n"] ++
  (if !db.issues.isEmpty then
    ["**⚠️ Обнаруженные проблемы:**\n\n"] ++ db.issues.map (fun s => "- " ++ s ++ "\n") ++ ["\n"]
   else ["✅ **Проблем не обнаружено**\n\n"])

/-- The WAL-summary section body: metric table, rate and classification
when data is present, otherwise the unavailability placeholder. -/
def renderWalBlock (wal : Option WalS) (duration : Int) : List String :=
  match wal with
  | some w =>
    ["| Метрика | Значение |\n",
     "|---------|----------|\n",
     "| **Количество записей** | " ++ fmtCommaV w.records ++ " |\n",
     "| **Full Page Images** | " ++ fmtCommaV w.fpi ++ " |\n",
     "| **Объем WAL** | " ++ fmtFixed 2 w.size_mb ++ " MB (" ++ fmtFixed 3 w.size_gb ++ " GB) |\n",
     "| **Время записи** | " ++ fmtFixed 2 w.write_time ++ " мс |\n",
     "| **Время синхронизации** | " ++ fmtFixed 2 w.sync_time ++ " мс |\n\n",
     "**Скорость генерации WAL**: " ++ fmtFixed 2 (walPerMin w.size_mb duration) ++ " MB/мин\n\n",
     walClassLine (walPerMin w.size_mb duration)]
  | none => ["*Данные недоступны*\n\n"]

/-- One entry of the top-WAL-queries listing. -/
def renderWalQuery (i : Nat) (query : WalQ) : List String :=
  ["**" ++ toString i ++ ". Query ID:** `" ++ pyStr query.query_id ++ "`\n\n",
   "- **SQL Preview:** `" ++ query.query_preview ++ query.query_preview_suffix ++ "`\n",
   "- **База данных:** " ++ pyStr query.dbname ++ "\n",
   "- **Количество вызовов:** " ++ fmtCommaV query.calls ++ "\n",
   "- **Объем WAL:** " ++ fmtFixed 2 query.wal_mb ++ " MB"] ++
  (if query.wal_pct.vgt 0 then [" — " ++ fmtFixed 1 query.wal_pct ++ "% от общего WAL"] else []) ++
  ["\n\n"]

/-- The top-WAL-queries section; the whole section (header included) is
emitted only when the list is non-empty. -/
def renderTopWalSection (qs : List WalQ) : List String :=
  if qs.isEmpty then []
  else
    ["### 📊 Топ-5 запросов по генерации WAL\n\n",
     "*Запросы с наибольшим объемом Write-Ahead Log*\n\n"] ++
    (qs.enum.map (fun p => renderWalQuery (p.1 + 1) p.2)).flatten ++ ["\n"]

/-- One entry of the top-queries section. -/
def renderQueryBlock (i : Nat) (query : QueryM) : List String :=
  ["### " ++ toString i ++ ". Query ID: `" ++ pyStr query.query_id ++ "`\n\n",
   "**SQL Preview:** `" ++ query.query_preview ++ query.query_preview_suffix ++ "`\n\n",
   "| Параметр | Значение |\n",
   "|----------|----------|\n",
   "| **База данных** | " ++ pyStr query.dbname ++ " |\n",
   "| **Пользователь** | " ++ pyStr query.username ++ " |\n",
   "| **Количество вызовов** | " ++ fmtCommaV query.calls ++ " |\n",
   "| **Общее время выполнения** | " ++ fmtFixed 0 (query.total_time.vmul (.num 1000)) ++ " мс |\n",
   "| **Среднее время** | " ++ fmtFixed 2 query.mean_time ++ " мс |\n",
   "| **Количество строк** | " ++
     (if !query.rows.visna && query.rows.vgt 0 then fmtCommaInt (pyIntV query.rows) else "") ++ " |\n",
   "| **Cache Hit Ratio** | " ++ fmtFixed 1 query.cache_ratio ++ "% |\n"] ++
  (if query.temp_blks.vgt 0 then
    ["| **Временные блоки** | " ++ fmtCommaV query.temp_blks ++ " |\n"] else []) ++
  ["\n"] ++
  (if !query.issues.isEmpty then
    ["**⚠️ Проблемы:**\n\n"] ++ query.issues.map (fun s => "- " ++ s ++ "\n") ++ ["\n"]
   else ["✅ **Запрос работает нормально**\n\n"]) ++
  (let recommendations :=
    (if query.mean_time.vgt 1000 then
      ["Рассмотреть оптимизацию запроса или добавление индексов"] else []) ++
    (if query.temp_blks.vgt 0 then
      ["Увеличить `work_mem` для избежания использования временных файлов"] else []) ++
    (if query.cache_ratio.vlt 90 then
      ["Проверить индексы и статистику таблиц"] else [])
   if !recommendations.isEmpty then
     ["**💡 Рекомендации:**\n\n"] ++ recommendations.map (fun s => "- " ++ s ++ "\n") ++ ["\n"]
   else []) ++
  ["---\n\n"]

/-- One entry of the problem-tables section. -/
def renderTableBlock (i : Nat) (table : TableM) : List String :=
  ["### " ++ toString i ++ ". `" ++ pyStr table.schema ++ "." ++ pyStr table.table ++ "`\n\n",
   "| Параметр | Значение |\n",
   "|----------|----------|\n",
   "| **База данных** | " ++ pyStr table.dbname ++ " |\n",
   "| **Размер** | " ++ pyStr table.size ++ " |\n",
   "| **Живых строк** | " ++ fmtCommaV table.live_tuples ++ " |\n",
   "| **Мертвых строк** | " ++ fmtCommaV table.dead_tuples ++ " |\n",
   "| **Seq Scan** | " ++ fmtCommaV table.seq_scan ++ " |\n",
   "| **Index Scan** | " ++ fmtCommaV table.idx_scan ++ " |\n",
   "| **Изменений с ANALYZE** | " ++ fmtCommaV table.mod_since_analyze ++ " |\n\n",
   "**⚠️ Проблемы:**\n\n"] ++
  table.issues.map (fun s => "- " ++ s ++ "\n") ++
  ["\n", "**💡 Рекомендации:**\n\n"] ++
  (if table.dead_tuples.vgtv (table.live_tuples.vmul (.num (1 / 5))) then
    ["- Выполнить `VACUUM ANALYZE " ++ pyStr table.schema ++ "." ++ pyStr table.table ++ ";`\n"] else []) ++
  (if table.mod_since_analyze.vgtv (table.live_tuples.vmul (.num (1 / 5))) then
    ["- Выполнить `ANALYZE " ++ pyStr table.schema ++ "." ++ pyStr table.table ++ ";`\n"] else []) ++
  (if table.seq_scan.vgt 100 && table.live_tuples.vgt 10000 then
    ["- Рассмотреть создание индекса для частых запросов\n"] else []) ++
  ["\n", "---\n\n"]

/-- One row of the unused-indexes table. -/
def renderIdxRow (idx : IdxM) : String :=
  "| " ++ pyStr idx.dbname ++ " | " ++ pyStr idx.schema ++ " | " ++ pyStr idx.table ++
  " | " ++ pyStr idx.index ++ " | " ++ pyStr idx.size ++ " |\n"

/-- The unused-indexes section; the whole section (header included) is
emitted only when the list is non-empty. -/
def renderIdxSection (unused : List IdxM) : List String :=
  if unused.isEmpty then []
  else
    ["## 🔍 Неиспользуемые индексы\n\n",
     "*Индексы, которые не использовались за период мониторинга*\n\n",
     "| База данных | Схема | Таблица | Индекс | Размер |\n",
     "|-------------|-------|---------|--------|--------|\n"] ++
    (unused.take 10).map renderIdxRow ++
    ["\n**💡 Рекомендация**: Рассмотреть удаление неиспользуемых индексов для экономии места и улучшения производительности INSERT/UPDATE операций.\n\n",
     "```sql\n",
     "-- Проверьте использование индекса перед удалением:\n"] ++
    (unused.take 3).map (fun idx =>
      "DROP INDEX IF EXISTS " ++ pyStr idx.schema ++ "." ++ pyStr idx.index ++ ";\n") ++
    ["```\n\n", "---\n\n"]

/-- The aggregate conclusions section of the report. -/
def summaryLines (db_stats : List DbM) (top_queries : List QueryM)
    (problem_tables : List TableM) (unused_indexes : List IdxM) : List String :=
  let good_things := (db_stats.map (fun db =>
    (if db.cache_hit_ratio.vge 95 then
      ["Отличный cache hit ratio в БД `" ++ pyStr db.dbname ++ "`: " ++
        fmtFixed 2 db.cache_hit_ratio ++ "%"] else []) ++
    (if db.deadlocks.veq (.num 0) then
      ["Нет deadlocks в БД `" ++ pyStr db.dbname ++ "`"] else []))).flatten
  let good_things := if good_things.isEmpty then ["База работает в целом стабильно"] else good_things
  let critical := (db_stats.map (fun db =>
    (if db.cache_hit_ratio.vlt 90 then
      ["**Очень низкий cache hit ratio** в `" ++ pyStr db.dbname ++ "`: " ++
        fmtFixed 2 db.cache_hit_ratio ++ "% - нужно увеличить `shared_buffers`"] else []) ++
    (if db.deadlocks.vtruthy && db.deadlocks.vgt 0 then
      ["**Deadlocks** в `" ++ pyStr db.dbname ++ "`: " ++ pyStr db.deadlocks ++
        " - проверить логику приложения"] else []))).flatten
  let recommendations := (db_stats.map (fun db =>
    (if db.temp_files.vtruthy && db.temp_files.vgt 0 then
      ["**Увеличить work_mem** - обнаружено использование временных файлов"] else []) ++
    (if db.cache_hit_ratio.vge 90 && db.cache_hit_ratio.vlt 95 then
      ["**Рассмотреть увеличение shared_buffers** - cache hit ratio " ++
        fmtFixed 2 db.cache_hit_ratio ++ "% можно улучшить"] else []))).flatten
  let recommendations := recommendations ++
    (if !problem_tables.isEmpty then
      ["**Настроить autovacuum** - обнаружены таблицы с большим количеством мертвых строк"] else [])
  let recommendations := recommendations ++
    (if !unused_indexes.isEmpty then
      ["**Удалить " ++ toString unused_indexes.length ++
        " неиспользуемых индексов** - освободит место и ускорит операции записи"] else [])
  let heavy_queries := top_queries.filter (fun q => q.mean_time.vgt 1000)
  let recommendations := recommendations ++
    (if !heavy_queries.isEmpty then
      ["**Оптимизировать " ++ toString heavy_queries.length ++
        " медленных запросов** - используйте EXPLAIN ANALYZE для анализа"] else [])
  let recommendations :=
    if recommendations.isEmpty then ["База данных настроена хорошо, критических рекомендаций нет"]
    else recommendations
  ["## 📋 Общие выводы и рекомендации\n\n", "### ✅ Что работает хорошо\n\n"] ++
  good_things.map (fun s => "- " ++ s ++ "\n") ++
  ["\n### ⚠️ Критические проблемы\n\n"] ++
  (if critical.isEmpty then ["- Критических проблем не обнаружено ✅\n"]
   else critical.map (fun s => "- " ++ s ++ "\n")) ++
  ["\n### 💡 Рекомендации по оптимизации\n\n"] ++
  recommendations.enum.map (fun p => toString (p.1 + 1) ++ ". " ++ p.2 ++ "\n")

/-- The full, strictly ordered write sequence of
`generate_markdown_report`, one list element per `f.write` payload.  The
two `datetime.now()` renderings are the parameter `now`. -/
def renderReport (now : String) (p : Period) (db_stats : List DbM) (top_queries : List QueryM)
    (wal_stats : Option WalS) (top_wal_queries : List WalQ) (problem_tables : List TableM)
    (unused_indexes : List IdxM) : List String :=
  ["# 📊 Анализ производительности PostgreSQL\n\n",
   "**Дата анализа**: " ++ now ++ "\n\n",
   "## ⏱️ Период мониторинга\n\n",
   "- **Начало**: `" ++ pyStr p.start ++ "`\n",
   "- **Конец**: `" ++ pyStr p.stop ++ "`\n",
   "- **Длительность**: " ++ toString p.duration ++ " минут\n\n",
   "---\n\n",
   "## 🗄️ Общая статистика баз данных\n\n"] ++
  (db_stats.map renderDbBlock).flatten ++
  ["---\n\n", "## 📝 Статистика Write-Ahead Log (WAL)\n\n"] ++
  renderWalBlock wal_stats p.duration ++
  renderTopWalSection top_wal_queries ++
  ["---\n\n", "## 🔥 Топ самых тяжелых запросов\n\n"] ++
  (if !top_queries.isEmpty then
    ["*Анализ " ++ toString top_queries.length ++ " запросов с наибольшим временем выполнения*\n\n"] ++
    (top_queries.enum.map (fun pr => renderQueryBlock (pr.1 + 1) pr.2)).flatten
   else ["*Данные о запросах недоступны*\n\n"]) ++
  (if !problem_tables.isEmpty then
    ["## 🗂️ Таблицы требующие внимания\n\n"] ++
    (problem_tables.enum.map (fun pr => renderTableBlock (pr.1 + 1) pr.2)).flatten
   else []) ++
  renderIdxSection unused_indexes ++
  summaryLines db_stats top_queries problem_tables unused_indexes ++
  ["\n---\n\n",
   "## 📚 Дополнительная информация\n\n",
   "**Источник данных**: `report--postgres-8360-8361.xlsx`\n\n",
   "**Инструменты анализа**: Python, pandas, openpyxl\n\n",
   "**Методология**: Анализ включает оценку производительности запросов, ",
   "использования индексов, статистики таблиц, WAL активности и общего здоровья БД.\n\n",
   "*Отчет сгенерирован автоматически " ++ now ++ "*\n"]

/-- Embeds `PostgresAnalyzer.generate_markdown_report`: run every
analysis pass over the workbook (propagating any `KeyError`) and render
the document. -/
def generate_markdown_report (now : String) (wb : Workbook) : Except String (List String) := do
  let p := get_report_period (wbGet wb "Properties")
  let db_stats := analyze_database_stats (wbGet wb "dbstat")
  let top_queries ← analyze_top_queries (wbGet wb "top_statements") (wbGet wb "queries") 10
  let wal_stats := analyze_wal_stats (wbGet wb "wal_stats")
  let top_wal_queries ← analyze_top_wal_queries (wbGet wb "top_statements") (wbGet wb "queries") 5
  let problem_tables := analyze_tables (wbGet wb "top_tables") 10
  let unused_indexes := analyze_indexes (wbGet wb "top_indexes")
  pure (renderReport now p db_stats top_queries wal_stats top_wal_queries problem_tables unused_indexes)

/-- State of the brace-balancing loop of `extract_data_from_html`:
`brace_count`, `in_string`, `escape_next`. -/
structure ScanSt where
  brace : Int
  inString : Bool
  escape : Bool
deriving DecidableEq, Repr

/-- One character step of the scanner loop (every `continue` branch of
the source, in order). -/
def scanStep (st : ScanSt) (c : Char) : ScanSt :=
  if st.escape then { st with escape := false }
  else if c = '\\' then { st with escape := true }
  else if c = '"' then { st with inString := !st.inString }
  else if !st.inString && c = '{' then { st with brace := st.brace + 1 }
  else if !st.inString && c = '}' then { st with brace := st.brace - 1 }
  else st

/-- The loop `break` condition: an unescaped top-level `}` that brings
`brace_count` to zero. -/
def termHere (st : ScanSt) (c : Char) : Bool :=
  !st.escape && !st.inString && c == '}' && st.brace == 1

/-- Number of characters consumed before the scan breaks, if it ever
does; models `end_idx - start_idx` of the loop in
`extract_data_from_html`. -/
def scanLen (st : ScanSt) : List Char → Option Nat
  | [] => none
  | c :: cs =>
    if termHere st c then some 1
    else (scanLen (scanStep st c) cs).map (· + 1)

/-- The extracted span `content[start_idx:end_idx]`; when the loop never
breaks, `end_idx` stays at `start_idx` and the span is empty. -/
def extractSpan (content : List Char) : List Char :=
  match scanLen ⟨0, false, false⟩ content with
  | some n => content.take n
  | none => []

/-- Whether `pat` is a prefix of the first list. -/
def listStartsWith : List Char → List Char → Bool
  | _, [] => true
  | [], _ :: _ => false
  | a :: as, b :: bs => a == b && listStartsWith as bs

/-- Python `content.find(pat)`: index of the first occurrence, if any. -/
def findSub (pat : List Char) : List Char → Option Nat
  | [] => if listStartsWith [] pat then some 0 else none
  | c :: cs =>
    if listStartsWith (c :: cs) pat then some 0 else (findSub pat cs).map (· + 1)

/-- Tail-recursive substring scan (kept tail-recursive so that concrete
report-sized inputs evaluate with constant reduction depth). -/
def textContainsAux (pat : List Char) : List Char → Bool
  | [] => listStartsWith [] pat
  | c :: cs => listStartsWith (c :: cs) pat || textContainsAux pat cs

/-- Substring test used by report-level theorems. -/
def textContains (hay needle : String) : Bool :=
  textContainsAux needle.data hay.data

/-- Embeds `extract_data_from_html` up to (excluding) `json.loads`: find
the `const data=` marker and take the balanced-brace span after it; a
missing marker raises `ValueError`, modelled as an error. -/
def extract_data_from_html (content : List Char) : Except String (List Char) :=
  match findSub "const data=".data content with
  | none => .error "Не удалось найти const data= в HTML файле"
  | some i => .ok (extractSpan (content.drop (i + "const data=".length)))

/-- A JSON value.  Strings carry their raw content; `renderJson` emits
the two escapes the scanner's state machine reacts to (`\"` and `\\`),
while every other character — braces inside string literals included —
is emitted raw. -/
inductive Json where
  | jnum : Nat → Json
  | jstr : String → Json
  | jbool : Bool → Json
  | jnull : Json
  | jarr : List Json → Json
  | jobj : List (String × Json) → Json

/-- The decimal digit characters. -/
def digitChar : Nat → Char
  | 0 => '0'
  | 1 => '1'
  | 2 => '2'
  | 3 => '3'
  | 4 => '4'
  | 5 => '5'
  | 6 => '6'
  | 7 => '7'
  | 8 => '8'
  | _ => '9'

/-- Decimal rendering of a natural number as JSON number text. -/
def renderNat (n : Nat) : List Char :=
  if n = 0 then ['0'] else ((Nat.digits 10 n).map digitChar).reverse

/-- JSON string escaping of one character. -/
def escChar (c : Char) : List Char :=
  if c = '"' then ['\\', '"'] else if c = '\\' then ['\\', '\\'] else [c]

/-- JSON string escaping of a character list. -/
def escList : List Char → List Char
  | [] => []
  | c :: cs => escChar c ++ escList cs

/-- A JSON string literal. -/
def renderStr (s : String) : List Char :=
  '"' :: escList s.data ++ ['"']

mutual

/-- The serialized text of a JSON value. -/
def renderJson : Json → List Char
  | .jnum n => renderNat n
  | .jstr s => renderStr s
  | .jbool b => if b then "true".data else "false".data
  | .jnull => "null".data
  | .jarr l => '[' :: renderElems l ++ [']']
  | .jobj m => '{' :: renderMembers m ++ ['}']

/-- Comma-separated array elements. -/
def renderElems : List Json → List Char
  | [] => []
  | [v] => renderJson v
  | v :: vs => renderJson v ++ ',' :: renderElems vs

/-- Comma-separated `"key":value` members. -/
def renderMembers : List (String × Json) → List Char
  | [] => []
  | [(k, v)] => renderStr k ++ ':' :: renderJson v
  | (k, v) :: ms => renderStr k ++ ':' :: renderJson v ++ ',' :: renderMembers ms

end

/-- A character the scanner is inert on outside strings. -/
def plainChar (c : Char) : Prop :=
  c ≠ '\\' ∧ c ≠ '"' ∧ c ≠ '{' ∧ c ≠ '}'

instance : DecidablePred plainChar := fun c => by
  unfold plainChar; infer_instance

/-- The scan consumes `xs` without breaking and ends in state `st2`. -/
def Passes (st1 : ScanSt) (xs : List Char) (st2 : ScanSt) : Prop :=
  ∀ rest, scanLen st1 (xs ++ rest) = (scanLen st2 rest).map (· + xs.length)

theorem passes_nil (st : ScanSt) : Passes st [] st := by
  intro rest
  cases h : scanLen st rest <;> simp [h]

theorem passes_one (st st' : ScanSt) (c : Char) (hterm : termHere st c = false)
    (hstep : scanStep st c = st') : Passes st [c] st' := by
  intro rest
  simp [scanLen, hterm, hstep]

theorem passes_append {st1 st2 st3 : ScanSt} {xs ys : List Char}
    (h1 : Passes st1 xs st2) (h2 : Passes st2 ys st3) : Passes st1 (xs ++ ys) st3 := by
  intro rest
  rw [List.append_assoc, h1 (ys ++ rest), h2 rest]
  cases scanLen st3 rest <;> simp [List.length_append]
  omega

theorem termHere_ne_rbrace (st : ScanSt) {c : Char} (hc : c ≠ '}') :
    termHere st c = false := by
  simp [termHere, hc]

theorem termHere_instring (st : ScanSt) (c : Char) (hi : st.inString = true) :
    termHere st c = false := by
  simp [termHere, hi]

theorem scanStep_plain (st : ScanSt) (c : Char) (he : st.escape = false)
    (hc : plainChar c) : scanStep st c = st := by
  obtain ⟨h1, h2, h3, h4⟩ := hc
  simp [scanStep, he, h1, h2, h3, h4]

theorem passes_plain (st : ScanSt) (c : Char) (he : st.escape = false)
    (hc : plainChar c) : Passes st [c] st :=
  passes_one _ _ _ (termHere_ne_rbrace _ hc.2.2.2) (scanStep_plain _ _ he hc)

theorem passes_plainList (st : ScanSt) (he : st.escape = false) (xs : List Char)
    (h : ∀ c ∈ xs, plainChar c) : Passes st xs st := by
  induction xs with
  | nil => exact passes_nil st
  | cons c cs ih =>
    have h1 : Passes st [c] st := passes_plain st c he (h c (by simp))
    have h2 : Passes st cs st := ih (fun x hx => h x (by simp [hx]))
    simpa using passes_append h1 h2

theorem scanStep_instring (st : ScanSt) (c : Char) (hi : st.inString = true)
    (he : st.escape = false) (h1 : c ≠ '\\') (h2 : c ≠ '"') : scanStep st c = st := by
  simp [scanStep, he, h1, h2, hi]

theorem passes_instring (st : ScanSt) (c : Char) (hi : st.inString = true)
    (he : st.escape = false) (h1 : c ≠ '\\') (h2 : c ≠ '"') : Passes st [c] st :=
  passes_one _ _ _ (termHere_instring _ _ hi) (scanStep_instring _ _ hi he h1 h2)

theorem passes_escaped (st : ScanSt) (c : Char) (he : st.escape = false) :
    Passes st ['\\', c] st := by
  obtain ⟨b, i, e⟩ := st
  simp only at he
  subst he
  have t1 : termHere ⟨b, i, false⟩ '\\' = false := termHere_ne_rbrace _ (by decide)
  have s1 : scanStep ⟨b, i, false⟩ '\\' = ⟨b, i, true⟩ := by simp [scanStep]
  have t2 : termHere ⟨b, i, true⟩ c = false := by simp [termHere]
  have s2 : scanStep ⟨b, i, true⟩ c = ⟨b, i, false⟩ := by simp [scanStep]
  simpa using passes_append (passes_one _ _ _ t1 s1) (passes_one _ _ _ t2 s2)

theorem plain_digitChar : ∀ d, plainChar (digitChar d)
  | 0 => by decide
  | 1 => by decide
  | 2 => by decide
  | 3 => by decide
  | 4 => by decide
  | 5 => by decide
  | 6 => by decide
  | 7 => by decide
  | 8 => by decide
  | _ + 9 => by show plainChar '9'; decide

theorem plain_renderNat (n : Nat) : ∀ c ∈ renderNat n, plainChar c := by
  intro c hc
  unfold renderNat at hc
  split at hc
  · simp at hc
    subst hc
    decide
  · simp only [List.mem_reverse, List.mem_map] at hc
    obtain ⟨d, _, rfl⟩ := hc
    exact plain_digitChar d

theorem passes_escList (b : Int) (cs : List Char) :
    Passes ⟨b, true, false⟩ (escList cs) ⟨b, true, false⟩ := by
  induction cs with
  | nil => exact passes_nil _
  | cons c cs ih =>
    have hc : Passes ⟨b, true, false⟩ (escChar c) ⟨b, true, false⟩ := by
      unfold escChar
      split
      · exact passes_escaped _ _ rfl
      · split
        · exact passes_escaped _ _ rfl
        · next h1 h2 => exact passes_instring _ _ rfl rfl h2 h1
    simpa [escList] using passes_append hc ih

theorem passes_renderStr (b : Int) (s : String) :
    Passes ⟨b, false, false⟩ (renderStr s) ⟨b, false, false⟩ := by
  have h1 : Passes ⟨b, false, false⟩ ['"'] ⟨b, true, false⟩ :=
    passes_one _ _ _ (termHere_ne_rbrace _ (by decide)) (by simp [scanStep])
  have h2 := passes_escList b s.data
  have h3 : Passes ⟨b, true, false⟩ ['"'] ⟨b, false, false⟩ :=
    passes_one _ _ _ (termHere_instring _ _ rfl) (by simp [scanStep])
  simpa [renderStr] using passes_append h1 (passes_append h2 h3)

mutual

theorem passes_renderJson (v : Json) (b : Int) (hb : 1 ≤ b) :
    Passes ⟨b, false, false⟩ (renderJson v) ⟨b, false, false⟩ := by
  cases v with
  | jnum n => exact passes_plainList _ rfl _ (plain_renderNat n)
  | jstr s => exact passes_renderStr b s
  | jbool bv =>
    cases bv
    · exact passes_plainList _ rfl _ (by decide)
    · exact passes_plainList _ rfl _ (by decide)
  | jnull => exact passes_plainList _ rfl _ (by decide)
  | jarr l =>
    have h1 : Passes ⟨b, false, false⟩ ['['] ⟨b, false, false⟩ :=
      passes_plain _ _ rfl (by decide)
    have h2 := passes_renderElems l b hb
    have h3 : Passes ⟨b, false, false⟩ [']'] ⟨b, false, false⟩ :=
      passes_plain _ _ rfl (by decide)
    simpa [renderJson] using passes_append h1 (passes_append h2 h3)
  | jobj m =>
    have h1 : Passes ⟨b, false, false⟩ ['{'] ⟨b + 1, false, false⟩ :=
      passes_one _ _ _ (termHere_ne_rbrace _ (by decide)) (by simp [scanStep])
    have h2 := passes_renderMembers m (b + 1) (by omega)
    have h3 : Passes ⟨b + 1, false, false⟩ ['}'] ⟨b, false, false⟩ := by
      refine passes_one _ _ _ ?_ ?_
      · simp only [termHere]
        simp only [Bool.not_false, Bool.true_and]
        have : (b + 1 == 1) = false := by
          simp only [beq_eq_false_iff_ne, ne_eq]
          omega
        simp [this]
      · simp [scanStep]
    simpa [renderJson] using passes_append h1 (passes_append h2 h3)

theorem passes_renderElems (l : List Json) (b : Int) (hb : 1 ≤ b) :
    Passes ⟨b, false, false⟩ (renderElems l) ⟨b, false, false⟩ := by
  match l with
  | [] => exact passes_nil _
  | [v] =>
    have := passes_renderJson v b hb
    simpa [renderElems] using this
  | v :: w :: vs =>
    have h1 := passes_renderJson v b hb
    have hc : Passes ⟨b, false, false⟩ [','] ⟨b, false, false⟩ :=
      passes_plain _ _ rfl (by decide)
    have h2 := passes_renderElems (w :: vs) b hb
    simpa [renderElems] using passes_append h1 (passes_append hc h2)

theorem passes_renderMembers (m : List (String × Json)) (b : Int) (hb : 1 ≤ b) :
    Passes ⟨b, false, false⟩ (renderMembers m) ⟨b, false, false⟩ := by
  match m with
  | [] => exact passes_nil _
  | [(k, v)] =>
    have h1 := passes_renderStr b k
    have hc : Passes ⟨b, false, false⟩ [':'] ⟨b, false, false⟩ :=
      passes_plain _ _ rfl (by decide)
    have h2 := passes_renderJson v b hb
    simpa [renderMembers] using passes_append h1 (passes_append hc h2)
  | (k, v) :: w :: ms =>
    have h1 := passes_renderStr b k
    have hc : Passes ⟨b, false, false⟩ [':'] ⟨b, false, false⟩ :=
      passes_plain _ _ rfl (by decide)
    have h2 := passes_renderJson v b hb
    have hc2 : Passes ⟨b, false, false⟩ [','] ⟨b, false, false⟩ :=
      passes_plain _ _ rfl (by decide)
    have h3 := passes_renderMembers (w :: ms) b hb
    simpa [renderMembers] using
      passes_append h1 (passes_append hc (passes_append h2 (passes_append hc2 h3)))

end

theorem scanLen_obj (m : List (String × Json)) (rest : List Char) :
    scanLen ⟨0, false, false⟩ (renderJson (.jobj m) ++ rest)
      = some ((renderJson (.jobj m)).length) := by
  have h1 : Passes ⟨0, false, false⟩ ['{'] ⟨1, false, false⟩ :=
    passes_one _ _ _ (termHere_ne_rbrace _ (by decide)) (by simp [scanStep])
  have h2 := passes_renderMembers m 1 (by norm_num)
  have hp := passes_append h1 h2
  have hstep := hp ('}' :: rest)
  have hterm : scanLen ⟨1, false, false⟩ ('}' :: rest) = some 1 := by
    simp [scanLen, termHere]
  rw [hterm] at hstep
  have hshape : renderJson (.jobj m) ++ rest = (['{'] ++ renderMembers m) ++ ('}' :: rest) := by
    simp [renderJson]
  rw [hshape, hstep]
  simp [renderJson]
  omega

theorem extractSpan_obj (m : List (String × Json)) (rest : List Char) :
    extractSpan (renderJson (.jobj m) ++ rest) = renderJson (.jobj m) := by
  unfold extractSpan
  rw [scanLen_obj]
  exact List.take_left _ _

theorem listStartsWith_append (xs t : List Char) : listStartsWith (xs ++ t) xs = true := by
  induction xs with
  | nil => simp [listStartsWith]
  | cons a as ih => simp [listStartsWith, ih]

theorem findSub_cons_self (a : Char) (as t : List Char) :
    findSub (a :: as) ((a :: as) ++ t) = some 0 := by
  simp [findSub, listStartsWith, listStartsWith_append]

theorem extract_marker (xs : List Char) :
    extract_data_from_html ("const data=".data ++ xs) = .ok (extractSpan xs) := by
  unfold extract_data_from_html
  have h : findSub "const data=".data ("const data=".data ++ xs) = some 0 := by
    simpa using findSub_cons_self 'c' "onst data=".data xs
  rw [h]
  have hdrop : ("const data=".data ++ xs).drop (0 + "const data=".length) = xs := by
    have h2 := List.drop_left "const data=".data xs
    simp [String.length] at h2 ⊢
  show Except.ok (extractSpan (("const data=".data ++ xs).drop (0 + "const data=".length)))
    = Except.ok (extractSpan xs)
  rw [hdrop]

/-- C5: `extract_data_from_html` locates the JSON span after the
`const data=` marker by balanced-brace scanning that tracks quoted-string
and escape state: for every input where the marker is followed by a
well-formed JSON object (the serialization of a `Json` AST rooted at an
object), the extracted substring is exactly that object, whatever trailing
HTML follows; in particular braces inside quoted string values do not
terminate the extraction early, as witnessed by the spec's concrete
example input, whose extracted span is exactly the embedded object. -/
theorem c5_json_span_extraction :
    (∀ (m : List (String × Json)) (rest : List Char),
      extract_data_from_html ("const data=".data ++ (renderJson (.jobj m) ++ rest))
        = .ok (renderJson (.jobj m))) ∧
    extract_data_from_html "const data=\x7b\"a\":\"\x7b\x7d\",\"b\":1\x7d</script><p>".data
      = .ok "\x7b\"a\":\"\x7b\x7d\",\"b\":1\x7d".data := by
  constructor
  · intro m rest
    rw [extract_marker, extractSpan_obj]
  · rfl

/-- C6: for every dbstat row, the rollback ratio computed by
`analyze_database_stats` (via `analyzeDbRow`) equals
`rollbacks / (commits + rollbacks) * 100` when `commits + rollbacks > 0`,
and equals exactly 0 when both are 0 — no division by zero occurs. -/
theorem c6_rollback_ratio :
    (∀ row : Row, (analyzeDbRow row).rollback_ratio
        = dbRollbackRatio (rowGet row "xact_commit" (.num 0)) (rowGet row "xact_rollback" (.num 0))) ∧
    (∀ c r : ℚ, dbRollbackRatio (.num c) (.num r)
        = if c + r > 0 then .num (r / (c + r) * 100) else .num 0) ∧
    dbRollbackRatio (.num 0) (.num 0) = .num 0 := by
  refine ⟨fun row => rfl, fun c r => ?_, by simp [dbRollbackRatio, Value.vadd, Value.vgt]⟩
  by_cases h : 0 < c + r
  · simp [dbRollbackRatio, Value.vadd, Value.vgt, Value.vdiv, Value.vmul, h]
  · simp [dbRollbackRatio, Value.vadd, Value.vgt, Value.vdiv, Value.vmul, h]

/-- C7: for every top_statements row, the per-query cache ratio computed
by `analyze_top_queries` (via `analyzeQueryRow`, which calls
`queryCacheRatio` on the row's shared-block counters) equals
`shared_blks_hit / (shared_blks_hit + shared_blks_read) * 100` when the
sum is positive, and equals exactly 100 when both counters are 0. -/
theorem c7_query_cache_ratio :
    (∀ (queries : DataFrame) (tc mc : String) (row : Row),
      (analyzeQueryRow queries tc mc row).map (fun res => res.cache_ratio)
        = (get_query_text queries (rowGet row "hexqueryid" (.str "N/A"))).map
            (fun _ => queryCacheRatio (rowGet row "shared_blks_hit" (.num 0))
              (rowGet row "shared_blks_read" (.num 0)))) ∧
    (∀ h r : ℚ, queryCacheRatio (.num h) (.num r)
        = if h + r > 0 then .num (h / (h + r) * 100) else .num 100) ∧
    queryCacheRatio (.num 0) (.num 0) = .num 100 := by
  refine ⟨fun queries tc mc row => ?_, fun h r => ?_, by simp [queryCacheRatio, Value.vadd, Value.vgt]⟩
  · unfold analyzeQueryRow
    cases hq : get_query_text queries (rowGet row "hexqueryid" (.str "N/A")) <;>
      simp [hq, Except.map, bind, Except.bind, pure, Except.pure]
  · by_cases hp : 0 < h + r
    · simp [queryCacheRatio, Value.vadd, Value.vgt, Value.vdiv, Value.vmul, hp]
    · simp [queryCacheRatio, Value.vadd, Value.vgt, Value.vdiv, Value.vmul, hp]

/-- C8: the WAL generation rate equals `size_mb / duration` when
`duration > 0` and 0 when `duration = 0`; exactly one classification line
is emitted, and it is the high line exactly when the rate exceeds 100, the
moderate line exactly when it lies in (50, 100], and the normal line
otherwise — the `duration = 0` case therefore classifies as normal. -/
theorem c8_wal_rate_classification :
    (∀ size d, walPerMin (.num size) d
        = if d > 0 then .num (size / (d : ℚ)) else .num 0) ∧
    (∀ s : Value, walClassLine (walPerMin s 0)
        = "✅ **Нормальная активность записи**\n\n") ∧
    (∀ r : ℚ,
      (walClassLine (.num r) = "⚠️ **Высокая скорость генерации WAL** - возможно много операций записи\n\n"
          ↔ r > 100) ∧
      (walClassLine (.num r) = "⚡ **Умеренная активность записи**\n\n"
          ↔ 50 < r ∧ r ≤ 100) ∧
      (walClassLine (.num r) = "✅ **Нормальная активность записи**\n\n"
          ↔ r ≤ 50)) := by
  refine ⟨fun size d => ?_, fun s => ?_, fun r => ?_⟩
  · by_cases hd : 0 < d
    · simp [walPerMin, Value.vdiv, hd]
    · simp [walPerMin, Value.vdiv, hd]
  · norm_num [walPerMin, walClassLine, Value.vgt]
  · rcases le_or_lt r 50 with hr | hr
    · have h1 : ¬((100 : ℚ) < r) := by linarith
      have h2 : ¬((50 : ℚ) < r) := by linarith
      have e : walClassLine (.num r) = "✅ **Нормальная активность записи**\n\n" := by
        simp [walClassLine, Value.vgt, h1, h2]
      rw [e]
      refine ⟨?_, ?_, ?_⟩ <;> (simp [hr]; try linarith)
    · rcases le_or_lt r 100 with hr2 | hr2
      · have h1 : ¬((100 : ℚ) < r) := by linarith
        have e : walClassLine (.num r) = "⚡ **Умеренная активность записи**\n\n" := by
          simp [walClassLine, Value.vgt, h1, hr]
        rw [e]
        refine ⟨?_, ?_, ?_⟩ <;> simp [hr, hr2]
      · have e : walClassLine (.num r) = "⚠️ **Высокая скорость генерации WAL** - возможно много операций записи\n\n" := by
          simp [walClassLine, Value.vgt, hr2]
        rw [e]
        refine ⟨?_, ?_, ?_⟩ <;> (simp [hr2]; try linarith)

theorem length_filterMap_of_all_some {α β : Type} (f : α → Option β) (l : List α)
    (h : ∀ a ∈ l, (f a).isSome) : (l.filterMap f).length = l.length := by
  induction l with
  | nil => rfl
  | cons a l ih =>
    rw [List.filterMap_cons]
    cases hf : f a with
    | none =>
      have := h a (by simp)
      rw [hf] at this
      simp at this
    | some b => simp [ih (fun x hx => h x (by simp [hx]))]

/-- C10: `analyze_indexes` classifies a top_indexes row as an unused
index exactly when `row.get('idx_scan', 0) == 0`; because the absent
column defaults to 0, a sheet whose rows all lack `idx_scan` reports
every row as an unused index. -/
theorem c10_unused_indexes :
    (∀ row : Row, (analyzeIndexRow row).isSome
        = (rowGet row "idx_scan" (.num 0)).veq (.num 0)) ∧
    (∀ df : DataFrame, (∀ r ∈ df.rows, List.lookup "idx_scan" r = none) →
      (analyze_indexes df).length = df.rows.length) := by
  constructor
  · intro row
    unfold analyzeIndexRow
    simp only []
    split <;> simp_all
  · intro df h
    unfold analyze_indexes
    split
    · next he => simp_all
    · refine length_filterMap_of_all_some _ _ ?_
      intro r hr
      have hget : rowGet r "idx_scan" (.num 0) = .num 0 := by
        unfold rowGet
        rw [h r hr]
      unfold analyzeIndexRow
      rw [hget]
      simp [Value.veq]

/-- Witness for `c10_unused_indexes`: a two-row top_indexes sheet with no
`idx_scan` column reports both rows. -/
theorem c10_unused_indexes_witness :
    (analyze_indexes ⟨["indexrelname"],
        [[("indexrelname", Value.str "i1")], [("indexrelname", Value.str "i2")]]⟩).length = 2 := by
  have h := c10_unused_indexes.2 ⟨["indexrelname"],
    [[("indexrelname", Value.str "i1")], [("indexrelname", Value.str "i2")]]⟩ (by decide)
  simpa using h

/-- Counterexample to C1: a non-empty top_statements sheet lacking both
`total_exec_time` and `total_time` makes `analyze_top_queries` raise
`KeyError` from `sort_values` — the absent column is not resolved to a
default, and the per-file run fails. -/
theorem c1_counterexample :
    analyze_top_queries ⟨["calls"], [[("calls", Value.num 1)]]⟩ ⟨[], []⟩ 10
      = .error "KeyError: total_time" := by
  rfl

theorem get_query_text_ok (queries : DataFrame) (qid : Value)
    (hq : queries.rows = [] ∨ ("hexqueryid" ∈ queries.cols ∧ "query_texts" ∈ queries.cols)) :
    ∃ o, get_query_text queries qid = .ok o := by
  unfold get_query_text
  by_cases hemp : queries.rows.isEmpty = true
  · rw [if_pos hemp]
    exact ⟨none, rfl⟩
  · rcases hq with he | ⟨h1, h2⟩
    · rw [he] at hemp
      simp at hemp
    · rw [if_neg (by simp [hemp]), if_pos h1]
      split
    
      · exact ⟨none, rfl⟩
      · rw [if_pos h2]
        split
        · next s _ =>
          by_cases hs : s = ""
          · rw [if_neg (by simp [hs])]
            exact ⟨none, rfl⟩
          · rw [if_pos hs]
            exact ⟨some (pyNormalize s), rfl⟩
        · exact ⟨none, rfl⟩

theorem analyzeQueryRow_ok (queries : DataFrame) (tc mc : String) (row : Row)
    (hq : queries.rows = [] ∨ ("hexqueryid" ∈ queries.cols ∧ "query_texts" ∈ queries.cols)) :
    ∃ res, analyzeQueryRow queries tc mc row = .ok res := by
  unfold analyzeQueryRow
  obtain ⟨o, ho⟩ := get_query_text_ok queries (rowGet row "hexqueryid" (.str "N/A")) hq
  simp only [bind, Except.bind, ho, pure, Except.pure]
  exact ⟨_, rfl⟩

theorem mapM_except_ok {α β : Type} (f : α → Except String β) (l : List α)
    (h : ∀ a ∈ l, ∃ b, f a = .ok b) : ∃ res, l.mapM f = .ok res := by
  induction l with
  | nil => exact ⟨[], rfl⟩
  | cons a l ih =>
    obtain ⟨b, hb⟩ := h a (by simp)
    obtain ⟨res, hres⟩ := ih (fun x hx => h x (by simp [hx]))
    refine ⟨b :: res, ?_⟩
    rw [List.mapM_cons, hb, hres]
    rfl

/-- C1 amended: absent per-row columns are resolved to defaults, but the
sheet-level column accesses are not default-tolerant: `analyze_top_queries`
completes without error exactly under the column preconditions of its
`sort_values` key (one of `total_exec_time`/`total_time` must exist on a
non-empty top_statements sheet) and of the `queries`-sheet lookup
(`hexqueryid` and `query_texts` must exist when that sheet is non-empty);
under those preconditions every other absent column falls back to its
documented default and the run succeeds. -/
theorem c1_amended (df queries : DataFrame) (n : Nat)
    (htime : timeColOf df ∈ df.cols)
    (hq : queries.rows = [] ∨ ("hexqueryid" ∈ queries.cols ∧ "query_texts" ∈ queries.cols)) :
    ∃ res, analyze_top_queries df queries n = .ok res := by
  unfold analyze_top_queries
  split
  · exact ⟨[], rfl⟩
  · rw [if_pos htime]
    exact mapM_except_ok _ _ (fun row _ => analyzeQueryRow_ok queries _ _ row hq)

/-- Witness for `c1_amended` at a concrete two-row sheet carrying only
`total_time`, with an empty queries sheet. -/
theorem c1_amended_witness :
    ∃ res, analyze_top_queries
        ⟨["total_time"], [[("total_time", Value.num 2)], [("total_time", Value.num 1)]]⟩
        ⟨[], []⟩ 10 = .ok res :=
  c1_amended ⟨["total_time"], [[("total_time", Value.num 2)], [("total_time", Value.num 1)]]⟩
    ⟨[], []⟩ 10 (by decide) (Or.inl rfl)

set_option maxRecDepth 8000 in
/-- Counterexample to C9: for an id present in the queries sheet whose
stored text is the non-empty string of one space, the claim's preview (the
normalized text truncated to 50 characters, i.e. the empty string) differs
from the code's preview: Python's truthiness test on the normalized text
makes `analyze_top_queries` fall back to `N/A`. -/
theorem c9_counterexample :
    (analyze_top_queries
        ⟨["total_time", "hexqueryid"], [[("total_time", Value.num 1), ("hexqueryid", Value.str "q1")]]⟩
        ⟨["hexqueryid", "query_texts"],
          [[("hexqueryid", Value.str "q1"), ("query_texts", Value.str " ")]]⟩ 10).map
        (fun res => res.map (fun r => r.query_preview))
      = .ok ["N/A"] ∧
    (pyNormalize " ").take 50 = "" ∧ ("N/A" : String) ≠ "" := by
  refine ⟨by rfl, by rfl, by decide⟩

/-- C9 amended: the stored text is normalized by collapsing whitespace
runs (the spec's example included); when the normalization is non-empty
the preview is its first 50 characters with an ellipsis suffix exactly
when the normalization is longer than 50 characters; for an absent id —
and also for a stored text whose normalization is empty — the preview is
`N/A` with no suffix. -/
theorem c9_amended :
    pyNormalize "SELECT   *\n FROM  t" = "SELECT * FROM t" ∧
    (∀ (queries : DataFrame) (qid : Value) (r : Row) (rest : List Row) (s : String),
      "hexqueryid" ∈ queries.cols → "query_texts" ∈ queries.cols →
      queries.rows.filter (fun r2 => (rowGet r2 "hexqueryid" Value.nan).veq qid) = r :: rest →
      rowGet r "query_texts" Value.nan = .str s → s ≠ "" →
      get_query_text queries qid = .ok (some (pyNormalize s))) ∧
    (∀ t : String, t ≠ "" →
      queryPreviewOf (some t) = t.take 50 ∧
      (queryPreviewSuffixOf (some t) = "..." ↔ 50 < t.length)) ∧
    (queryPreviewOf none = "N/A" ∧ queryPreviewSuffixOf none = "" ∧
      queryPreviewOf (some "") = "N/A" ∧ queryPreviewSuffixOf (some "") = "") := by
  refine ⟨by rfl, ?_, ?_, by constructor <;> simp [queryPreviewOf, queryPreviewSuffixOf]⟩
  · intro queries qid r rest s h1 h2 hf hrt hs
    unfold get_query_text
    have hne : queries.rows.isEmpty = false := by
      cases hrows : queries.rows with
      | nil => rw [hrows] at hf; simp at hf
      | cons x xs => simp [hrows]
    rw [if_neg (by simp [hne]), if_pos h1, hf]
    show (if "query_texts" ∈ queries.cols then _ else _) = _
    rw [if_pos h2, hrt]
    show (if s ≠ "" then Except.ok (some (pyNormalize s)) else Except.ok none) = _
    rw [if_pos hs]
  · intro t ht
    constructor
    · simp [queryPreviewOf, ht]
    · by_cases hl : 50 < t.length
      · simp [queryPreviewSuffixOf, ht, hl]
      · simp [queryPreviewSuffixOf, ht, hl]

set_option maxRecDepth 8000 in
/-- Witness for `c9_amended`: the spec's example text resolved through a
concrete queries sheet yields the collapsed preview. -/
theorem c9_amended_witness :
    get_query_text
        ⟨["hexqueryid", "query_texts"],
          [[("hexqueryid", Value.str "q1"), ("query_texts", Value.str "SELECT   *\n FROM  t")]]⟩
        (Value.str "q1")
      = .ok (some "SELECT * FROM t") ∧
    queryPreviewOf (some "SELECT * FROM t") = "SELECT * FROM t" := by
  constructor
  · have h := c9_amended.2.1
      ⟨["hexqueryid", "query_texts"],
        [[("hexqueryid", Value.str "q1"), ("query_texts", Value.str "SELECT   *\n FROM  t")]]⟩
      (Value.str "q1")
      [("hexqueryid", Value.str "q1"), ("query_texts", Value.str "SELECT   *\n FROM  t")]
      [] "SELECT   *\n FROM  t" (by decide) (by decide) (by rfl) (by rfl) (by decide)
    rw [h, c9_amended.1]
  · have h := (c9_amended.2.2.1 "SELECT * FROM t" (by decide)).1
    rw [h]
    rfl

/-- A workbook containing only a `Properties` sheet, the end-to-end
scenario of the spec. -/
def wbPropsOnly : Workbook :=
  [("Properties", ⟨["report_start1", "report_end1"],
    [[("report_start1", Value.str "2024-01-01 00:00"),
      ("report_end1", Value.str "2024-01-01 00:30")]]⟩)]

set_option maxRecDepth 20000 in
/-- Counterexample to C3: on a workbook with only a `Properties` sheet the
report is produced, but three of the fixed-order section headers — the
top-WAL-queries, problem-tables and unused-indexes sections — are
conditionally omitted (their emission is guarded by non-emptiness of the
corresponding result lists), so not every section header is present. -/
theorem c3_counterexample :
    (generate_markdown_report "2024-01-01 12:00:00" wbPropsOnly).map
        (fun lines =>
          (textContains (String.join lines) "Топ-5 запросов по генерации WAL",
           textContains (String.join lines) "Таблицы требующие внимания",
           textContains (String.join lines) "Неиспользуемые индексы"))
      = .ok (false, false, false) := by
  rfl

set_option maxRecDepth 20000 in
/-- C3 amended: a workbook with only a `Properties` sheet still yields a
complete report containing every unconditional section header of the fixed
order (title, monitoring period, per-database statistics, WAL statistics,
top queries, conclusions, footer) with the "data unavailable" placeholders
for the WAL and query sections; only the three data-dependent sections
(top WAL queries, problem tables, unused indexes) are omitted when their
result lists are empty. -/
theorem c3_amended :
    (generate_markdown_report "2024-01-01 12:00:00" wbPropsOnly).map
        (fun lines =>
          (textContains (String.join lines) "# 📊 Анализ производительности PostgreSQL",
           textContains (String.join lines) "## ⏱️ Период мониторинга",
           textContains (String.join lines) "## 🗄️ Общая статистика баз данных",
           textContains (String.join lines) "## 📝 Статистика Write-Ahead Log (WAL)",
           textContains (String.join lines) "*Данные недоступны*",
           textContains (String.join lines) "## 🔥 Топ самых тяжелых запросов",
           textContains (String.join lines) "*Данные о запросах недоступны*",
           textContains (String.join lines) "## 📋 Общие выводы и рекомендации",
           textContains (String.join lines) "## 📚 Дополнительная информация"))
      = .ok (true, true, true, true, true, true, true, true, true) := by
  rfl

/-- A workbook whose `dbstat` sheet has a NaN cache-hit cell. -/
def wbNanCache : Workbook :=
  [("dbstat", ⟨["dbname", "blks_hit_pct", "xact_commit", "xact_rollback", "deadlocks", "temp_files", "temp_bytes"],
    [[("dbname", Value.str "db1"), ("blks_hit_pct", Value.nan),
      ("xact_commit", Value.nan), ("xact_rollback", Value.nan),
      ("deadlocks", Value.nan), ("temp_files", Value.nan), ("temp_bytes", Value.nan)]]⟩)]

set_option maxRecDepth 20000 in
/-- C4 (code bug): a NaN `blks_hit_pct` cell is rendered as the literal
`nan` inside the Cache Hit Ratio table cell — the renderer's NaN-to-empty
guard (present for the surrounding cells, per the source's own comment) is
missing for this formatted field, contradicting the documented rule that
NaN never appears in a metric cell. -/
theorem c4_nan_in_cell :
    (generate_markdown_report "2024-01-01 12:00:00" wbNanCache).map
        (fun lines => textContains (String.join lines) "| **Cache Hit Ratio** | nan% |")
      = .ok true := by
  rfl
